import Mathlib

/-!
Verification of the Ductulator duct-sizing calculator (src/unnamed/part_000,
a single-page React application).  The numeric core is embedded here over the
real numbers: JavaScript double arithmetic is modelled as exact real
arithmetic, Math.pow as Real.rpow, Math.log10 as Real.logb 10, Math.PI as
Real.pi and Math.sqrt as Real.sqrt.  A textual numeric field is modelled as
Option Real: none stands for a string whose JavaScript Number image is not
finite (NaN or an infinity), some x for a string parsing to the finite double
idealised as the real x.
-/

/-- Textual numeric input: none is non-numeric text, some x parses to x. -/
abbrev NumInput := Option ℝ

/-- Source: toNum, lines 26-29.  Number.isFinite n ? n : 0, total parse. -/
def toNum : NumInput → ℝ
  | Option.none => 0
  | Option.some x => x

/-- Source: roundAreaIn2, lines 31-34.  const r = dIn / 2; Math.PI * r * r. -/
noncomputable def roundAreaIn2 (dIn : ℝ) : ℝ :=
  Real.pi * (dIn / 2) * (dIn / 2)

/-- Source: equivalentRoundIn, lines 37-40.  Rect to equivalent round, inches. -/
noncomputable def equivalentRoundIn (a b : ℝ) : ℝ :=
  if a ≤ 0 ∨ b ≤ 0 then 0
  else 1.3 * (a * b) ^ (0.625 : ℝ) / (a + b) ^ ((0.25 : ℝ))

/-- Source: frictionFactorDarcy, lines 43-48.  Laminar 64/Re below 2300,
Swamee-Jain style explicit approximation above. -/
noncomputable def frictionFactorDarcy (Re eps D : ℝ) : ℝ :=
  if Re ≤ 0 ∨ D ≤ 0 then 0
  else if Re < 2300 then 64 / Re
  else 0.25 / (Real.logb 10 (eps / (3.7 * D) + 5.74 / Re ^ ((0.9 : ℝ)))) ^ 2

/-- Source: inToM, lines 50-52. -/
noncomputable def inToM (inches : ℝ) : ℝ := inches * 0.0254

/-- Source: ftToM, lines 53-55. -/
noncomputable def ftToM (ft : ℝ) : ℝ := ft * 0.3048

/-- Source: paToInWg, lines 56-58. -/
noncomputable def paToInWg (pa : ℝ) : ℝ := pa / 249.0889

/-- Source: cfmToM3s, lines 59-61. -/
noncomputable def cfmToM3s (cfm : ℝ) : ℝ := cfm * 0.00047194745

/-- Air density constant, line 151. -/
noncomputable def rho : ℝ := 1.2

/-- Dynamic viscosity constant, line 152. -/
noncomputable def mu : ℝ := 1.81e-5

/-- Source: type Tab is UI only; modes, line 24. -/
inductive Mode where
  | fromSize
  | fromCfm
deriving DecidableEq

/-- Source: type Shape, line 22. -/
inductive Shape where
  | round
  | rect
deriving DecidableEq

/-- Source: type Material, line 23. -/
inductive Material where
  | galv
  | pvc
  | flex
deriving DecidableEq

/-- Source: type FittingKey, lines 63-70. -/
inductive FittingKey where
  | elbow90
  | elbow45
  | teeThru
  | teeBranch
  | wye45
  | boot
  | transition
deriving DecidableEq

/-- Source: the key order of FITTING_LABELS, lines 72-80, over which the run
memo iterates. -/
def FITTING_KEYS : List FittingKey :=
  [FittingKey.elbow90, FittingKey.elbow45, FittingKey.teeThru,
   FittingKey.teeBranch, FittingKey.wye45, FittingKey.boot,
   FittingKey.transition]

/-- Source: DEFAULT_EQ_LEN_FT, lines 84-92. -/
noncomputable def DEFAULT_EQ_LEN_FT : FittingKey → ℝ
  | FittingKey.elbow90 => 25
  | FittingKey.elbow45 => 15
  | FittingKey.teeThru => 20
  | FittingKey.teeBranch => 60
  | FittingKey.wye45 => 30
  | FittingKey.boot => 20
  | FittingKey.transition => 15

/-- The input snapshot the calc memo reads, lines 98-110 and 228. -/
structure CalcInputs where
  mode : Mode
  shape : Shape
  material : Material
  targetFpm : NumInput
  roundDia : NumInput
  rectW : NumInput
  rectH : NumInput
  cfm : NumInput

/-- Every let-bound intermediate of the calc memo, lines 147-228, in source
order, so that each division site can be named. -/
structure CalcInternals where
  FPM : ℝ
  eps : ℝ
  areaIn2 : ℝ
  usedCfm : ℝ
  areaFt2 : ℝ
  Dh_in : ℝ
  eqRound : ℝ
  velFpm : ℝ
  Q : ℝ
  A : ℝ
  V : ℝ
  D : ℝ
  Re : ℝ
  f : ℝ
  dpPa : ℝ
  dpInWg : ℝ
  idealRoundDia : ℝ

/-- Source: the calc memo body, lines 147-228, translated let by let.
JS x > 0 is written 0 < x.  On line 191 the JS expression
toNum(roundDia) || 0 is the identity on the result of toNum, since toNum is
total and 0 || 0 is 0, so it is modelled as toNum s.roundDia. -/
noncomputable def internals (s : CalcInputs) : CalcInternals :=
  let FPM := toNum s.targetFpm
  let eps : ℝ :=
    match s.material with
    | Material.galv => 0.00015
    | Material.pvc => 0.0000015
    | Material.flex => 0.0003
  let sized : ℝ × ℝ :=
    match s.mode with
    | Mode.fromSize =>
        let areaIn2 :=
          match s.shape with
          | Shape.round =>
              let d := toNum s.roundDia
              if 0 < d then roundAreaIn2 d else 0
          | Shape.rect =>
              let w := toNum s.rectW
              let h := toNum s.rectH
              if 0 < w ∧ 0 < h then w * h else 0
        let areaFt2 := areaIn2 / 144
        (areaIn2, if 0 < areaFt2 then areaFt2 * FPM else 0)
    | Mode.fromCfm =>
        let usedCfm := toNum s.cfm
        let areaFt2 := if 0 < FPM then usedCfm / FPM else 0
        (areaFt2 * 144, usedCfm)
  let areaIn2 := sized.1
  let usedCfm := sized.2
  let areaFt2 := areaIn2 / 144
  let geom : ℝ × ℝ :=
    match s.shape with
    | Shape.round => (toNum s.roundDia, 0)
    | Shape.rect =>
        let w := toNum s.rectW
        let h := toNum s.rectH
        (if 0 < w ∧ 0 < h then 2 * w * h / (w + h) else 0,
         equivalentRoundIn w h)
  let Dh_in := geom.1
  let eqRound := geom.2
  let velFpm := if 0 < areaFt2 then usedCfm / areaFt2 else 0
  let Q := cfmToM3s usedCfm
  let A := if 0 < areaIn2 then areaIn2 * (0.0254 * 0.0254) else 0
  let V := if 0 < A then Q / A else 0
  let D := inToM Dh_in
  let Re := if 0 < mu then rho * V * D / mu else 0
  let f := frictionFactorDarcy Re eps D
  let L := ftToM 100
  let dpPa := if 0 < D then f * (L / D) * (rho * V * V / 2) else 0
  let dpInWg := paToInWg dpPa
  let idealRoundDia :=
    if 0 < areaIn2 then Real.sqrt (4 * areaIn2 / Real.pi) else 0
  ⟨FPM, eps, areaIn2, usedCfm, areaFt2, Dh_in, eqRound, velFpm,
   Q, A, V, D, Re, f, dpPa, dpInWg, idealRoundDia⟩

/-- The record the calc memo returns, lines 218-227. -/
structure CalcResult where
  usedCfm : ℝ
  areaIn2 : ℝ
  areaFt2 : ℝ
  velFpm : ℝ
  Dh_in : ℝ
  eqRound : ℝ
  dpInWgPer100ft : ℝ
  idealRoundDia : ℝ

/-- The calc memo, lines 147-228: the exposed fields of the internals. -/
noncomputable def calcDuct (s : CalcInputs) : CalcResult :=
  ⟨(internals s).usedCfm, (internals s).areaIn2, (internals s).areaFt2,
   (internals s).velFpm, (internals s).Dh_in, (internals s).eqRound,
   (internals s).dpInWg, (internals s).idealRoundDia⟩

/-- The input snapshot the run memo reads, lines 113-129 and 247. -/
structure RunInputs where
  straightLenFt : NumInput
  fitCount : FittingKey → NumInput
  fitEqLen : FittingKey → NumInput

/-- The record the run memo returns, line 246.  itemEq k is the eqTotal field
of the items entry for kind k. -/
structure RunResult where
  itemEq : FittingKey → ℝ
  straight : ℝ
  fittingsEq : ℝ
  totalEqLen : ℝ
  frictionPer100 : ℝ
  totalDrop : ℝ

/-- Source: the run memo, lines 230-247.  The friction rate it reads from
calc.dpInWgPer100ft is passed as the argument frictionPer100.  The reduce
over items with initial accumulator 0 is a left fold. -/
noncomputable def run (ri : RunInputs) (frictionPer100 : ℝ) : RunResult :=
  let straight := toNum ri.straightLenFt
  let itemEq := fun k => toNum (ri.fitCount k) * toNum (ri.fitEqLen k)
  let fittingsEq := List.foldl (fun a b => a + b) 0 (List.map itemEq FITTING_KEYS)
  let totalEqLen := straight + fittingsEq
  let totalDrop := frictionPer100 * (totalEqLen / 100)
  ⟨itemEq, straight, fittingsEq, totalEqLen, frictionPer100, totalDrop⟩

/-- Bad input predicate of the spec sentence behind claim C1: the velocity
input, or a dimension input of the selected shape, is zero, negative or
non-numeric (a non-numeric field has toNum value 0). -/
def dimOrVelBad (s : CalcInputs) : Prop :=
  toNum s.targetFpm ≤ 0 ∨
    match s.shape with
    | Shape.round => toNum s.roundDia ≤ 0
    | Shape.rect => toNum s.rectW ≤ 0 ∨ toNum s.rectH ≤ 0

/-- A dimension input of the selected shape is zero, negative or
non-numeric. -/
def dimBad (s : CalcInputs) : Prop :=
  match s.shape with
  | Shape.round => toNum s.roundDia ≤ 0
  | Shape.rect => toNum s.rectW ≤ 0 ∨ toNum s.rectH ≤ 0

/-- Input state refuting claim C1: size-to-airflow mode, round 10 inch duct,
velocity text -100. -/
noncomputable def c1state : CalcInputs :=
  CalcInputs.mk Mode.fromSize Shape.round Material.galv
    (some (-100)) (some 10) (some 0) (some 0) (some 0)

/-- Witness state for the amended claim C1: round diameter text 0. -/
noncomputable def c1wState : CalcInputs :=
  CalcInputs.mk Mode.fromSize Shape.round Material.galv
    (some 700) (some 0) (some 0) (some 0) (some 0)

/-- The denominator of the turbulent branch of frictionFactorDarcy, line 47,
as evaluated inside the calc memo. -/
noncomputable def turbDenom (s : CalcInputs) : ℝ :=
  (Real.logb 10 ((internals s).eps / (3.7 * (internals s).D)
      + 5.74 / (internals s).Re ^ ((0.9 : ℝ)))) ^ 2

/-- Modelled from the spec sentence behind claim C2 (every division has a
nonzero denominator or is short-circuited): a checked division that fails
when its denominator is zero at the moment the code would divide. -/
noncomputable def divCk (x y : ℝ) : Option ℝ :=
  if y = 0 then none else some (x / y)

/-- roundAreaIn2 (lines 31-34) with its one division checked. -/
noncomputable def roundAreaIn2Ck (dIn : ℝ) : Option ℝ :=
  Option.bind (divCk dIn 2) (fun r => some (Real.pi * r * r))

/-- equivalentRoundIn (lines 37-40) with its division checked. -/
noncomputable def equivalentRoundInCk (a b : ℝ) : Option ℝ :=
  if a ≤ 0 ∨ b ≤ 0 then some 0
  else divCk (1.3 * (a * b) ^ (0.625 : ℝ)) ((a + b) ^ ((0.25 : ℝ)))

/-- frictionFactorDarcy (lines 43-48) with its four divisions checked. -/
noncomputable def frictionFactorDarcyCk (Re eps D : ℝ) : Option ℝ :=
  if Re ≤ 0 ∨ D ≤ 0 then some 0
  else if Re < 2300 then divCk 64 Re
  else
    Option.bind (divCk eps (3.7 * D)) (fun t1 =>
      Option.bind (divCk 5.74 (Re ^ ((0.9 : ℝ)))) (fun t2 =>
        divCk 0.25 ((Real.logb 10 (t1 + t2)) ^ 2)))

/-- paToInWg (lines 56-58) with its division checked. -/
noncomputable def paToInWgCk (pa : ℝ) : Option ℝ := divCk pa 249.0889

/-- The calc memo of lines 147-228 rerun under the checked-division
semantics of the spec: the same control flow and the same expressions as
internals, but each division the code performs goes through divCk, so the
whole run returns none exactly when some division is evaluated with a zero
denominator.  Claim C2 as stated is that this never happens and the run
always returns some (internals s). -/
noncomputable def calcChecked (s : CalcInputs) : Option CalcInternals :=
  let FPM := toNum s.targetFpm
  let eps : ℝ :=
    match s.material with
    | Material.galv => 0.00015
    | Material.pvc => 0.0000015
    | Material.flex => 0.0003
  Option.bind
    (match s.mode with
     | Mode.fromSize =>
         Option.bind
           (match s.shape with
            | Shape.round =>
                let d := toNum s.roundDia
                if 0 < d then roundAreaIn2Ck d else some 0
            | Shape.rect =>
                let w := toNum s.rectW
                let h := toNum s.rectH
                if 0 < w ∧ 0 < h then some (w * h) else some 0)
           (fun areaIn2 =>
             Option.bind (divCk areaIn2 144) (fun areaFt2 =>
               some (areaIn2, if 0 < areaFt2 then areaFt2 * FPM else 0)))
     | Mode.fromCfm =>
         let usedCfm := toNum s.cfm
         Option.bind (if 0 < FPM then divCk usedCfm FPM else some 0)
           (fun areaFt2 => some (areaFt2 * 144, usedCfm)))
    (fun sized =>
      let areaIn2 := sized.1
      let usedCfm := sized.2
      Option.bind (divCk areaIn2 144) (fun areaFt2 =>
        Option.bind
          (match s.shape with
           | Shape.round => some ((toNum s.roundDia, 0) : ℝ × ℝ)
           | Shape.rect =>
               let w := toNum s.rectW
               let h := toNum s.rectH
               Option.bind
                 (if 0 < w ∧ 0 < h then divCk (2 * w * h) (w + h) else some 0)
                 (fun dh => Option.bind (equivalentRoundInCk w h)
                   (fun er => some (dh, er))))
          (fun geom =>
            let Dh_in := geom.1
            let eqRound := geom.2
            Option.bind (if 0 < areaFt2 then divCk usedCfm areaFt2 else some 0)
              (fun velFpm =>
                let Q := cfmToM3s usedCfm
                let A := if 0 < areaIn2 then areaIn2 * (0.0254 * 0.0254) else 0
                Option.bind (if 0 < A then divCk Q A else some 0) (fun V =>
                  let D := inToM Dh_in
                  Option.bind (if 0 < mu then divCk (rho * V * D) mu else some 0)
                    (fun Re =>
                      Option.bind (frictionFactorDarcyCk Re eps D) (fun f =>
                        let L := ftToM 100
                        Option.bind
                          (if 0 < D then
                             Option.bind (divCk L D) (fun ld =>
                               Option.bind (divCk (rho * V * V) 2)
                                 (fun vh => some (f * ld * vh)))
                           else some 0)
                          (fun dpPa =>
                            Option.bind (paToInWgCk dpPa) (fun dpInWg =>
                              Option.bind
                                (if 0 < areaIn2 then
                                   Option.bind (divCk (4 * areaIn2) Real.pi)
                                     (fun q => some (Real.sqrt q))
                                 else some 0)
                                (fun idealRoundDia =>
                                  some ⟨FPM, eps, areaIn2, usedCfm, areaFt2,
                                    Dh_in, eqRound, velFpm, Q, A, V, D, Re, f,
                                    dpPa, dpInWg, idealRoundDia⟩))))))))))

/-- Round-diameter text of the state refuting claim C2, chosen so that the
hydraulic diameter in metres is exactly 32768/808259635 and hence
eps/(3.7*D) = 1 - 5.74/2^18 for galvanised eps = 0.00015. -/
noncomputable def c2dia : ℝ := 32768000 / 20529794729

/-- Velocity text of the state refuting claim C2, chosen so that the Reynolds
number is exactly 2^20, whence Re^0.9 = 2^18. -/
noncomputable def c2fpm : ℝ :=
  (2 ^ 20 * (1.81e-5) * 144 * 0.00064516) /
    (1.2 * 0.00047194745 * (32768 / 808259635))

/-- Input state refuting claim C2: airflow-to-size mode, round shape,
galvanised material, cfm text 1, adversarial diameter and velocity texts
making the turbulent logarithm vanish. -/
noncomputable def c2state : CalcInputs :=
  CalcInputs.mk Mode.fromCfm Shape.round Material.galv
    (some c2fpm) (some c2dia) (some 0) (some 0) (some 1)

/-- First state of the round-trip witness of claim C4: rectangular 12 by 12
inch duct at 700 FPM, so the area is exactly one square foot. -/
noncomputable def c4state : CalcInputs :=
  CalcInputs.mk Mode.fromSize Shape.rect Material.galv
    (some 700) (some 0) (some 12) (some 12) (some 0)

/-- Fitting quantities of the run-loss scenario of claim C5: two 90-degree
elbows and one boot, lines 115-123. -/
def c5cnt : FittingKey → NumInput
  | FittingKey.elbow90 => some 2
  | FittingKey.boot => some 1
  | _ => some 0

/-- Unit equivalent lengths of the run-loss scenario of claim C5: the
defaults, lines 125-129. -/
noncomputable def c5eq : FittingKey → NumInput :=
  fun k => some (DEFAULT_EQ_LEN_FT k)

/-- Witness state for claim C6: airflow-to-size mode, 800 CFM at 700 FPM. -/
noncomputable def c6wState : CalcInputs :=
  CalcInputs.mk Mode.fromCfm Shape.round Material.galv
    (some 700) (some 0) (some 0) (some 0) (some 800)

/-- Witness state for claim C7: rectangular 10 by 8 inch duct. -/
noncomputable def c7wState : CalcInputs :=
  CalcInputs.mk Mode.fromSize Shape.rect Material.galv
    (some 700) (some 0) (some 10) (some 8) (some 0)

/-- Witness state for claim C8: round 10 inch duct at 700 FPM. -/
noncomputable def c8wState : CalcInputs :=
  CalcInputs.mk Mode.fromSize Shape.round Material.galv
    (some 700) (some 10) (some 0) (some 0) (some 0)

/-- Fitting quantities of the witness of claim C9: one of each kind. -/
def c9cnt : FittingKey → NumInput := fun _ => some 1

/-- First unit-equivalent-length assignment of the witness of claim C9. -/
noncomputable def c9e1 : FittingKey → NumInput :=
  fun k => some (DEFAULT_EQ_LEN_FT k)

/-- Second unit-equivalent-length assignment of the witness of claim C9:
differs from c9e1 only at the 90-degree elbow. -/
noncomputable def c9e2 : FittingKey → NumInput
  | FittingKey.elbow90 => some 40
  | k => some (DEFAULT_EQ_LEN_FT k)

/-- Fitting quantities of the state of claim C10: none. -/
def c10cnt : FittingKey → NumInput := fun _ => some 0

/-- Unit equivalent lengths of the state of claim C10: the defaults. -/
noncomputable def c10eq : FittingKey → NumInput :=
  fun k => some (DEFAULT_EQ_LEN_FT k)

theorem calcDuct_usedCfm (s : CalcInputs) :
    (calcDuct s).usedCfm = (internals s).usedCfm := rfl

theorem calcDuct_areaIn2 (s : CalcInputs) :
    (calcDuct s).areaIn2 = (internals s).areaIn2 := rfl

theorem calcDuct_areaFt2 (s : CalcInputs) :
    (calcDuct s).areaFt2 = (internals s).areaFt2 := rfl

theorem calcDuct_velFpm (s : CalcInputs) :
    (calcDuct s).velFpm = (internals s).velFpm := rfl

theorem calcDuct_Dh_in (s : CalcInputs) :
    (calcDuct s).Dh_in = (internals s).Dh_in := rfl

theorem calcDuct_eqRound (s : CalcInputs) :
    (calcDuct s).eqRound = (internals s).eqRound := rfl

theorem calcDuct_dp (s : CalcInputs) :
    (calcDuct s).dpInWgPer100ft = (internals s).dpInWg := rfl

theorem calcDuct_ideal (s : CalcInputs) :
    (calcDuct s).idealRoundDia = (internals s).idealRoundDia := rfl

theorem toNum_some (x : ℝ) : toNum (some x) = x := rfl

theorem internals_FPM (s : CalcInputs) :
    (internals s).FPM = toNum s.targetFpm := by
  obtain ⟨mo, sh, m, v, dia, w, h, c⟩ := s
  cases mo <;> cases sh <;> rfl

theorem internals_areaFt2 (s : CalcInputs) :
    (internals s).areaFt2 = (internals s).areaIn2 / 144 := by
  obtain ⟨mo, sh, m, v, dia, w, h, c⟩ := s
  cases mo <;> cases sh <;> rfl

theorem internals_velFpm (s : CalcInputs) :
    (internals s).velFpm =
      if 0 < (internals s).areaFt2
      then (internals s).usedCfm / (internals s).areaFt2 else 0 := by
  obtain ⟨mo, sh, m, v, dia, w, h, c⟩ := s
  cases mo <;> cases sh <;> rfl

theorem internals_Q (s : CalcInputs) :
    (internals s).Q = cfmToM3s (internals s).usedCfm := by
  obtain ⟨mo, sh, m, v, dia, w, h, c⟩ := s
  cases mo <;> cases sh <;> rfl

theorem internals_A (s : CalcInputs) :
    (internals s).A =
      if 0 < (internals s).areaIn2
      then (internals s).areaIn2 * (0.0254 * 0.0254) else 0 := by
  obtain ⟨mo, sh, m, v, dia, w, h, c⟩ := s
  cases mo <;> cases sh <;> rfl

theorem internals_V (s : CalcInputs) :
    (internals s).V =
      if 0 < (internals s).A then (internals s).Q / (internals s).A else 0 := by
  obtain ⟨mo, sh, m, v, dia, w, h, c⟩ := s
  cases mo <;> cases sh <;> rfl

theorem internals_D (s : CalcInputs) :
    (internals s).D = inToM (internals s).Dh_in := by
  obtain ⟨mo, sh, m, v, dia, w, h, c⟩ := s
  cases mo <;> cases sh <;> rfl

theorem internals_Re (s : CalcInputs) :
    (internals s).Re =
      if 0 < mu then rho * (internals s).V * (internals s).D / mu else 0 := by
  obtain ⟨mo, sh, m, v, dia, w, h, c⟩ := s
  cases mo <;> cases sh <;> rfl

theorem internals_f (s : CalcInputs) :
    (internals s).f =
      frictionFactorDarcy (internals s).Re (internals s).eps (internals s).D := by
  obtain ⟨mo, sh, m, v, dia, w, h, c⟩ := s
  cases mo <;> cases sh <;> rfl

theorem internals_dpPa (s : CalcInputs) :
    (internals s).dpPa =
      if 0 < (internals s).D
      then (internals s).f * (ftToM 100 / (internals s).D) *
        (rho * (internals s).V * (internals s).V / 2)
      else 0 := by
  obtain ⟨mo, sh, m, v, dia, w, h, c⟩ := s
  cases mo <;> cases sh <;> rfl

theorem internals_dpInWg (s : CalcInputs) :
    (internals s).dpInWg = paToInWg (internals s).dpPa := by
  obtain ⟨mo, sh, m, v, dia, w, h, c⟩ := s
  cases mo <;> cases sh <;> rfl

theorem internals_ideal (s : CalcInputs) :
    (internals s).idealRoundDia =
      if 0 < (internals s).areaIn2
      then Real.sqrt (4 * (internals s).areaIn2 / Real.pi) else 0 := by
  obtain ⟨mo, sh, m, v, dia, w, h, c⟩ := s
  cases mo <;> cases sh <;> rfl

theorem internals_round_Dh (mo : Mode) (m : Material) (v dia w h c : NumInput) :
    (internals (CalcInputs.mk mo Shape.round m v dia w h c)).Dh_in
      = toNum dia := by
  cases mo <;> rfl

theorem internals_rect_Dh (mo : Mode) (m : Material) (v dia w h c : NumInput) :
    (internals (CalcInputs.mk mo Shape.rect m v dia w h c)).Dh_in
      = (if 0 < toNum w ∧ 0 < toNum h
         then 2 * toNum w * toNum h / (toNum w + toNum h) else 0) := by
  cases mo <;> rfl

theorem internals_round_eqRound (mo : Mode) (m : Material) (v dia w h c : NumInput) :
    (internals (CalcInputs.mk mo Shape.round m v dia w h c)).eqRound = 0 := by
  cases mo <;> rfl

theorem internals_rect_eqRound (mo : Mode) (m : Material) (v dia w h c : NumInput) :
    (internals (CalcInputs.mk mo Shape.rect m v dia w h c)).eqRound
      = equivalentRoundIn (toNum w) (toNum h) := by
  cases mo <;> rfl

theorem internals_fromSize_round_areaIn2 (m : Material) (v dia w h c : NumInput) :
    (internals (CalcInputs.mk Mode.fromSize Shape.round m v dia w h c)).areaIn2
      = (if 0 < toNum dia then roundAreaIn2 (toNum dia) else 0) := rfl

theorem internals_fromSize_rect_areaIn2 (m : Material) (v dia w h c : NumInput) :
    (internals (CalcInputs.mk Mode.fromSize Shape.rect m v dia w h c)).areaIn2
      = (if 0 < toNum w ∧ 0 < toNum h then toNum w * toNum h else 0) := rfl

theorem internals_fromSize_usedCfm (sh : Shape) (m : Material) (v dia w h c : NumInput) :
    (internals (CalcInputs.mk Mode.fromSize sh m v dia w h c)).usedCfm
      = (if 0 < (internals (CalcInputs.mk Mode.fromSize sh m v dia w h c)).areaFt2
         then (internals (CalcInputs.mk Mode.fromSize sh m v dia w h c)).areaFt2 * toNum v
         else 0) := by
  cases sh <;> rfl

theorem internals_fromCfm_usedCfm (sh : Shape) (m : Material) (v dia w h c : NumInput) :
    (internals (CalcInputs.mk Mode.fromCfm sh m v dia w h c)).usedCfm
      = toNum c := by
  cases sh <;> rfl

theorem internals_fromCfm_areaIn2 (sh : Shape) (m : Material) (v dia w h c : NumInput) :
    (internals (CalcInputs.mk Mode.fromCfm sh m v dia w h c)).areaIn2
      = (if 0 < toNum v then toNum c / toNum v else 0) * 144 := by
  cases sh <;> rfl

theorem internals_galv_eps (mo : Mode) (sh : Shape) (v dia w h c : NumInput) :
    (internals (CalcInputs.mk mo sh Material.galv v dia w h c)).eps = 0.00015 := by
  cases mo <;> cases sh <;> rfl

theorem run_itemEq (ri : RunInputs) (fr : ℝ) (k : FittingKey) :
    (run ri fr).itemEq k = toNum (ri.fitCount k) * toNum (ri.fitEqLen k) := rfl

theorem run_straight (ri : RunInputs) (fr : ℝ) :
    (run ri fr).straight = toNum ri.straightLenFt := rfl

theorem run_fittingsEq (ri : RunInputs) (fr : ℝ) :
    (run ri fr).fittingsEq =
      List.foldl (fun a b => a + b) 0
        (List.map (fun k => toNum (ri.fitCount k) * toNum (ri.fitEqLen k))
          FITTING_KEYS) := rfl

theorem run_totalEqLen (ri : RunInputs) (fr : ℝ) :
    (run ri fr).totalEqLen = (run ri fr).straight + (run ri fr).fittingsEq := rfl

theorem run_totalDrop (ri : RunInputs) (fr : ℝ) :
    (run ri fr).totalDrop = fr * ((run ri fr).totalEqLen / 100) := rfl

/-- C5: for every straight length and every assignment of quantity and unit
equivalent length to the seven fitting kinds, the run memo returns the total
fitting equivalent length as the sum over the seven kinds of quantity times
unit length, the total equivalent length as straight plus that sum, and the
total pressure drop as friction rate times total length over 100; with the
default unit lengths, straight 50 ft, two 90-degree elbows and one boot, the
fittings length is 70 ft, the total length 120 ft and the drop is the
friction rate times 1.2. -/
theorem c5_runTotals (st : NumInput) (cnt eqv : FittingKey → NumInput) (fr : ℝ) :
    (run (RunInputs.mk st cnt eqv) fr).fittingsEq
        = toNum (cnt FittingKey.elbow90) * toNum (eqv FittingKey.elbow90)
        + toNum (cnt FittingKey.elbow45) * toNum (eqv FittingKey.elbow45)
        + toNum (cnt FittingKey.teeThru) * toNum (eqv FittingKey.teeThru)
        + toNum (cnt FittingKey.teeBranch) * toNum (eqv FittingKey.teeBranch)
        + toNum (cnt FittingKey.wye45) * toNum (eqv FittingKey.wye45)
        + toNum (cnt FittingKey.boot) * toNum (eqv FittingKey.boot)
        + toNum (cnt FittingKey.transition) * toNum (eqv FittingKey.transition)
      ∧ (run (RunInputs.mk st cnt eqv) fr).totalEqLen
        = toNum st + (run (RunInputs.mk st cnt eqv) fr).fittingsEq
      ∧ (run (RunInputs.mk st cnt eqv) fr).totalDrop
        = fr * ((run (RunInputs.mk st cnt eqv) fr).totalEqLen / 100)
      ∧ (run (RunInputs.mk (some 50) c5cnt c5eq) fr).fittingsEq = 70
      ∧ (run (RunInputs.mk (some 50) c5cnt c5eq) fr).totalEqLen = 120
      ∧ (run (RunInputs.mk (some 50) c5cnt c5eq) fr).totalDrop = fr * 1.2 := by
  refine ⟨?_, rfl, rfl, ?_, ?_, ?_⟩
  · simp [run_fittingsEq, FITTING_KEYS]
  · simp [run_fittingsEq, FITTING_KEYS, c5cnt, c5eq, DEFAULT_EQ_LEN_FT, toNum]
    norm_num
  · simp [run_totalEqLen, run_straight, run_fittingsEq, FITTING_KEYS, c5cnt,
      c5eq, DEFAULT_EQ_LEN_FT, toNum]
    norm_num
  · simp [run_totalDrop, run_totalEqLen, run_straight, run_fittingsEq,
      FITTING_KEYS, c5cnt, c5eq, DEFAULT_EQ_LEN_FT, toNum]
    norm_num

/-- C9: two run input states that differ only in the unit equivalent length
of one fitting kind k have identical per-fitting contributions at every other
kind. -/
theorem c9_frame (st : NumInput) (cnt e1 e2 : FittingKey → NumInput) (fr : ℝ)
    (k : FittingKey) (he : ∀ k2, k2 ≠ k → e1 k2 = e2 k2) :
    ∀ k2, k2 ≠ k →
      (run (RunInputs.mk st cnt e1) fr).itemEq k2
        = (run (RunInputs.mk st cnt e2) fr).itemEq k2 := by
  intro k2 hk
  rw [run_itemEq, run_itemEq]
  simp only []
  rw [he k2 hk]

/-- C9 witness: changing the elbow unit length from the default to 40 leaves
the boot contribution unchanged. -/
theorem c9_witness :
    (run (RunInputs.mk (some 50) c9cnt c9e1) 1).itemEq FittingKey.boot
      = (run (RunInputs.mk (some 50) c9cnt c9e2) 1).itemEq FittingKey.boot := by
  refine c9_frame (some 50) c9cnt c9e1 c9e2 1 FittingKey.elbow90 ?_
    FittingKey.boot (by decide)
  intro k2 h
  cases k2
  · exact absurd rfl h
  all_goals rfl

/-- C10: the run memo applies no non-negativity guard: a negative straight
length text parses to a negative number and makes the total equivalent length
and the total pressure drop negative. -/
theorem c10_noGuard :
    toNum (some (-50)) = (-50 : ℝ)
      ∧ (run (RunInputs.mk (some (-50)) c10cnt c10eq) 1).totalEqLen < 0
      ∧ (run (RunInputs.mk (some (-50)) c10cnt c10eq) 1).totalDrop < 0 := by
  refine ⟨rfl, ?_, ?_⟩
  · simp [run_totalEqLen, run_straight, run_fittingsEq, FITTING_KEYS, c10cnt,
      toNum]
  · simp [run_totalDrop, run_totalEqLen, run_straight, run_fittingsEq,
      FITTING_KEYS, c10cnt, toNum]
    norm_num

/-- C3 counterexample: at Re = 100 (laminar range) but D = 0 the code returns
0, not 64/Re, so the claim as stated is false. -/
theorem c3_counterexample :
    frictionFactorDarcy 100 0.00015 0 ≠ 64 / 100 := by
  unfold frictionFactorDarcy
  rw [if_pos (Or.inr le_rfl)]
  norm_num

/-- C3 amended: with hydraulic diameter D > 0 required in both regimes, the
friction factor is 64/Re for 0 < Re < 2300 and the Swamee-Jain style
expression 0.25 / (log10(eps/(3.7 D) + 5.74/Re^0.9))^2 for Re at least
2300. -/
theorem c3_friction (Re eps D : ℝ) :
    (0 < Re → Re < 2300 → 0 < D → frictionFactorDarcy Re eps D = 64 / Re)
      ∧ (2300 ≤ Re → 0 < D → frictionFactorDarcy Re eps D
          = 0.25 / (Real.logb 10 (eps / (3.7 * D) + 5.74 / Re ^ ((0.9 : ℝ)))) ^ 2) := by
  constructor
  · intro h1 h2 h3
    unfold frictionFactorDarcy
    rw [if_neg (by push_neg; exact ⟨h1, h3⟩), if_pos h2]
  · intro h1 h2
    have hRe : (0 : ℝ) < Re := lt_of_lt_of_le (by norm_num) h1
    unfold frictionFactorDarcy
    rw [if_neg (by push_neg; exact ⟨hRe, h2⟩), if_neg (not_lt.mpr h1)]

/-- C3 witness: both regimes at concrete inputs. -/
theorem c3_witness :
    frictionFactorDarcy 100 0.00015 1 = 64 / 100
      ∧ frictionFactorDarcy 2300 0.00015 1
        = 0.25 / (Real.logb 10 (0.00015 / (3.7 * 1) + 5.74 / (2300 : ℝ) ^ ((0.9 : ℝ)))) ^ 2 :=
  ⟨(c3_friction 100 0.00015 1).1 (by norm_num) (by norm_num) (by norm_num),
   (c3_friction 2300 0.00015 1).2 (by norm_num) (by norm_num)⟩

/-- C7: for rectangular shape, in either mode, positive width and height give
hydraulic diameter 2wh/(w+h) and equivalent round 1.3 (wh)^0.625/(w+h)^0.25,
while a non-positive dimension gives 0 for both. -/
theorem c7_rect (mo : Mode) (m : Material) (v dia w h c : NumInput) :
    (0 < toNum w → 0 < toNum h →
        (calcDuct (CalcInputs.mk mo Shape.rect m v dia w h c)).Dh_in
            = 2 * toNum w * toNum h / (toNum w + toNum h)
          ∧ (calcDuct (CalcInputs.mk mo Shape.rect m v dia w h c)).eqRound
            = 1.3 * (toNum w * toNum h) ^ (0.625 : ℝ) / (toNum w + toNum h) ^ ((0.25 : ℝ)))
      ∧ (toNum w ≤ 0 ∨ toNum h ≤ 0 →
        (calcDuct (CalcInputs.mk mo Shape.rect m v dia w h c)).Dh_in = 0
          ∧ (calcDuct (CalcInputs.mk mo Shape.rect m v dia w h c)).eqRound = 0) := by
  constructor
  · intro hw hh
    constructor
    · rw [calcDuct_Dh_in, internals_rect_Dh, if_pos ⟨hw, hh⟩]
    · rw [calcDuct_eqRound, internals_rect_eqRound]
      unfold equivalentRoundIn
      rw [if_neg (by push_neg; exact ⟨hw, hh⟩)]
  · intro hb
    have hng : ¬ (0 < toNum w ∧ 0 < toNum h) := by
      rcases hb with hb | hb
      · exact fun hc => absurd hc.1 (not_lt.mpr hb)
      · exact fun hc => absurd hc.2 (not_lt.mpr hb)
    constructor
    · rw [calcDuct_Dh_in, internals_rect_Dh, if_neg hng]
    · rw [calcDuct_eqRound, internals_rect_eqRound]
      unfold equivalentRoundIn
      rw [if_pos hb]

/-- C7 witness: the 10 by 8 inch rectangular duct. -/
theorem c7_witness :
    (calcDuct c7wState).Dh_in
        = 2 * toNum (some 10) * toNum (some 8) / (toNum (some 10) + toNum (some 8))
      ∧ (calcDuct c7wState).eqRound
        = 1.3 * (toNum (some 10) * toNum (some 8)) ^ (0.625 : ℝ)
            / (toNum (some 10) + toNum (some 8)) ^ ((0.25 : ℝ)) := by
  have h := (c7_rect Mode.fromSize Material.galv (some 700) (some 0)
    (some 10) (some 8) (some 0)).1 (by norm_num [toNum]) (by norm_num [toNum])
  exact h

/-- C8: in size-to-airflow mode with round shape and positive diameter text d,
the area in square inches is pi (d/2)^2 and the airflow is that area over 144
times the velocity input. -/
theorem c8_round (m : Material) (v dia w h c : NumInput) (hd : 0 < toNum dia) :
    (calcDuct (CalcInputs.mk Mode.fromSize Shape.round m v dia w h c)).areaIn2
        = Real.pi * (toNum dia / 2) ^ 2
      ∧ (calcDuct (CalcInputs.mk Mode.fromSize Shape.round m v dia w h c)).usedCfm
        = (calcDuct (CalcInputs.mk Mode.fromSize Shape.round m v dia w h c)).areaIn2
            / 144 * toNum v := by
  have harea :
      (internals (CalcInputs.mk Mode.fromSize Shape.round m v dia w h c)).areaIn2
        = roundAreaIn2 (toNum dia) := by
    rw [internals_fromSize_round_areaIn2, if_pos hd]
  constructor
  · rw [calcDuct_areaIn2, harea]
    unfold roundAreaIn2
    ring
  · have hA : 0 < (internals (CalcInputs.mk Mode.fromSize Shape.round m v dia w h c)).areaFt2 := by
      rw [internals_areaFt2, harea]
      unfold roundAreaIn2
      have h2 : 0 < toNum dia / 2 := by linarith
      exact div_pos (mul_pos (mul_pos Real.pi_pos h2) h2) (by norm_num)
    rw [calcDuct_usedCfm, internals_fromSize_usedCfm, if_pos hA,
      calcDuct_areaIn2, internals_areaFt2]

/-- C8 witness: the 10 inch round duct at 700 FPM. -/
theorem c8_witness :
    (calcDuct c8wState).areaIn2 = Real.pi * (toNum (some 10) / 2) ^ 2
      ∧ (calcDuct c8wState).usedCfm
        = (calcDuct c8wState).areaIn2 / 144 * toNum (some 700) :=
  c8_round Material.galv (some 700) (some 10) (some 0) (some 0) (some 0)
    (by norm_num [toNum])

/-- C6: in airflow-to-size mode the area in square feet is cfm/velocity for
positive velocity and 0 otherwise, the area in square inches is 144 times the
area in square feet, and a positive area yields the ideal round diameter
sqrt(4 area / pi). -/
theorem c6_fromCfm (sh : Shape) (m : Material) (v dia w h c : NumInput) :
    ((0 : ℝ) < toNum v →
        (calcDuct (CalcInputs.mk Mode.fromCfm sh m v dia w h c)).areaFt2
          = toNum c / toNum v)
      ∧ (toNum v ≤ 0 →
        (calcDuct (CalcInputs.mk Mode.fromCfm sh m v dia w h c)).areaFt2 = 0)
      ∧ (calcDuct (CalcInputs.mk Mode.fromCfm sh m v dia w h c)).areaIn2
        = (calcDuct (CalcInputs.mk Mode.fromCfm sh m v dia w h c)).areaFt2 * 144
      ∧ ((0 : ℝ) < (calcDuct (CalcInputs.mk Mode.fromCfm sh m v dia w h c)).areaIn2 →
        (calcDuct (CalcInputs.mk Mode.fromCfm sh m v dia w h c)).idealRoundDia
          = Real.sqrt (4 *
              (calcDuct (CalcInputs.mk Mode.fromCfm sh m v dia w h c)).areaIn2
                / Real.pi)) := by
  refine ⟨?_, ?_, ?_, ?_⟩
  · intro hv
    rw [calcDuct_areaFt2, internals_areaFt2, internals_fromCfm_areaIn2,
      if_pos hv, mul_div_cancel_right₀ _ (by norm_num : (144 : ℝ) ≠ 0)]
  · intro hv
    rw [calcDuct_areaFt2, internals_areaFt2, internals_fromCfm_areaIn2,
      if_neg (not_lt.mpr hv)]
    norm_num
  · rw [calcDuct_areaIn2, calcDuct_areaFt2, internals_areaFt2,
      div_mul_cancel₀ _ (by norm_num : (144 : ℝ) ≠ 0)]
  · intro ha
    rw [calcDuct_areaIn2] at ha
    rw [calcDuct_ideal, calcDuct_areaIn2, internals_ideal, if_pos ha]

/-- C6 witness: 800 CFM at 700 FPM. -/
theorem c6_witness :
    (calcDuct c6wState).areaFt2 = toNum (some 800) / toNum (some 700)
      ∧ (calcDuct c6wState).idealRoundDia
        = Real.sqrt (4 * (calcDuct c6wState).areaIn2 / Real.pi) := by
  have h := c6_fromCfm Shape.round Material.galv (some 700) (some 0) (some 0)
    (some 0) (some 800)
  have hv : (0 : ℝ) < toNum (some 700) := by norm_num [toNum]
  have ha : (0 : ℝ) < (calcDuct c6wState).areaIn2 := by
    have := h.2.2.1
    rw [show (CalcInputs.mk Mode.fromCfm Shape.round Material.galv (some 700)
      (some 0) (some 0) (some 0) (some 800)) = c6wState from rfl] at h this
    rw [this, h.1 hv]
    norm_num [toNum]
  exact ⟨h.1 hv, h.2.2.2 ha⟩

/-- C4: in size-to-airflow mode with positive velocity text V and positive
resulting area, the airflow is area(ft2) times V, and rerunning in
airflow-to-size mode on that airflow with the same velocity reproduces the
same area in square feet, exactly over the reals. -/
theorem c4_roundtrip (sh : Shape) (m : Material) (v dia w h c : NumInput)
    (hv : (0 : ℝ) < toNum v)
    (ha : (0 : ℝ) < (calcDuct (CalcInputs.mk Mode.fromSize sh m v dia w h c)).areaFt2) :
    (calcDuct (CalcInputs.mk Mode.fromSize sh m v dia w h c)).usedCfm
        = (calcDuct (CalcInputs.mk Mode.fromSize sh m v dia w h c)).areaFt2 * toNum v
      ∧ (calcDuct (CalcInputs.mk Mode.fromCfm sh m v dia w h
            (some ((calcDuct (CalcInputs.mk Mode.fromSize sh m v dia w h c)).usedCfm)))).areaFt2
        = (calcDuct (CalcInputs.mk Mode.fromSize sh m v dia w h c)).areaFt2 := by
  rw [calcDuct_areaFt2] at ha
  have hcfm :
      (calcDuct (CalcInputs.mk Mode.fromSize sh m v dia w h c)).usedCfm
        = (calcDuct (CalcInputs.mk Mode.fromSize sh m v dia w h c)).areaFt2 * toNum v := by
    rw [calcDuct_usedCfm, internals_fromSize_usedCfm, if_pos ha, calcDuct_areaFt2]
  refine ⟨hcfm, ?_⟩
  rw [calcDuct_areaFt2, internals_areaFt2, internals_fromCfm_areaIn2,
    if_pos hv, mul_div_cancel_right₀ _ (by norm_num : (144 : ℝ) ≠ 0),
    toNum_some, hcfm, mul_div_cancel_right₀ _ (ne_of_gt hv), calcDuct_areaFt2]

/-- C4 witness: the 12 by 12 inch rectangular duct at 700 FPM has area
exactly one square foot, and the round trip reproduces it. -/
theorem c4_witness :
    (calcDuct c4state).usedCfm = (calcDuct c4state).areaFt2 * toNum (some 700)
      ∧ (calcDuct (CalcInputs.mk Mode.fromCfm Shape.rect Material.galv
            (some 700) (some 0) (some 12) (some 12)
            (some ((calcDuct c4state).usedCfm)))).areaFt2
        = (calcDuct c4state).areaFt2 := by
  have ha : (0 : ℝ) < (calcDuct c4state).areaFt2 := by
    rw [show c4state = CalcInputs.mk Mode.fromSize Shape.rect Material.galv
      (some 700) (some 0) (some 12) (some 12) (some 0) from rfl,
      calcDuct_areaFt2, internals_areaFt2, internals_fromSize_rect_areaIn2,
      if_pos (by norm_num [toNum])]
    norm_num [toNum]
  exact c4_roundtrip Shape.rect Material.galv (some 700) (some 0) (some 12)
    (some 12) (some 0) (by norm_num [toNum]) ha

/-- C1 counterexample: in size-to-airflow mode with a round 10 inch duct and
velocity text -100 the velocity input is negative, yet the computed area is
pi times 25 square inches, not 0, so the claim as stated is false. -/
theorem c1_counterexample :
    dimOrVelBad c1state ∧ (calcDuct c1state).areaIn2 ≠ 0 := by
  constructor
  · exact Or.inl (by simp [c1state, toNum_some])
  · have harea : (calcDuct c1state).areaIn2 = roundAreaIn2 10 := by
      rw [show c1state = CalcInputs.mk Mode.fromSize Shape.round Material.galv
            (some (-100)) (some 10) (some 0) (some 0) (some 0) from rfl,
        calcDuct_areaIn2, internals_fromSize_round_areaIn2,
        if_pos (by rw [toNum_some]; norm_num), toNum_some]
    rw [harea]
    unfold roundAreaIn2
    positivity

/-- C1 amended: in size-to-airflow mode, whenever a dimension input of the
selected shape is zero, negative or non-numeric, the computed areas, the
velocity, the airflow and the friction rate are all 0. -/
theorem c1_amended (sh : Shape) (m : Material) (v dia w h c : NumInput)
    (hb : dimBad (CalcInputs.mk Mode.fromSize sh m v dia w h c)) :
    (calcDuct (CalcInputs.mk Mode.fromSize sh m v dia w h c)).areaIn2 = 0
      ∧ (calcDuct (CalcInputs.mk Mode.fromSize sh m v dia w h c)).areaFt2 = 0
      ∧ (calcDuct (CalcInputs.mk Mode.fromSize sh m v dia w h c)).velFpm = 0
      ∧ (calcDuct (CalcInputs.mk Mode.fromSize sh m v dia w h c)).usedCfm = 0
      ∧ (calcDuct (CalcInputs.mk Mode.fromSize sh m v dia w h c)).dpInWgPer100ft = 0 := by
  have hA0 : (internals (CalcInputs.mk Mode.fromSize sh m v dia w h c)).areaIn2 = 0 := by
    cases sh
    · simp only [dimBad] at hb
      rw [internals_fromSize_round_areaIn2, if_neg (not_lt.mpr hb)]
    · simp only [dimBad] at hb
      have hng : ¬ (0 < toNum w ∧ 0 < toNum h) := by
        rcases hb with hb | hb
        · exact fun hc => absurd hc.1 (not_lt.mpr hb)
        · exact fun hc => absurd hc.2 (not_lt.mpr hb)
      rw [internals_fromSize_rect_areaIn2, if_neg hng]
  have hF0 : (internals (CalcInputs.mk Mode.fromSize sh m v dia w h c)).areaFt2 = 0 := by
    rw [internals_areaFt2, hA0]
    norm_num
  have hAm : (internals (CalcInputs.mk Mode.fromSize sh m v dia w h c)).A = 0 := by
    rw [internals_A, hA0]
    norm_num
  have hV0 : (internals (CalcInputs.mk Mode.fromSize sh m v dia w h c)).V = 0 := by
    rw [internals_V, hAm]
    norm_num
  refine ⟨calcDuct_areaIn2 _ ▸ hA0, calcDuct_areaFt2 _ ▸ hF0, ?_, ?_, ?_⟩
  · rw [calcDuct_velFpm, internals_velFpm, hF0]
    norm_num
  · rw [calcDuct_usedCfm, internals_fromSize_usedCfm, hF0]
    norm_num
  · rw [calcDuct_dp, internals_dpInWg, internals_dpPa, hV0]
    simp [paToInWg]

/-- C1 witness: round shape with diameter text 0 zeroes the whole result. -/
theorem c1_witness :
    (calcDuct c1wState).areaIn2 = 0 ∧ (calcDuct c1wState).areaFt2 = 0
      ∧ (calcDuct c1wState).velFpm = 0 ∧ (calcDuct c1wState).usedCfm = 0
      ∧ (calcDuct c1wState).dpInWgPer100ft = 0 :=
  c1_amended Shape.round Material.galv (some 700) (some 0) (some 0) (some 0)
    (some 0) (by simp [dimBad, toNum_some])

theorem optionBind_some {α β : Type} (a : α) (f : α → Option β) :
    Option.bind (some a) f = f a := rfl

theorem divCk_of_ne (x y : ℝ) (h : y ≠ 0) : divCk x y = some (x / y) := by
  unfold divCk
  rw [if_neg h]

theorem ck_guard (x y : ℝ) :
    (if 0 < y then divCk x y else some 0)
      = some (if 0 < y then x / y else 0) := by
  split_ifs with h
  · exact divCk_of_ne x y (ne_of_gt h)
  · rfl

theorem ck_guard2 (x w k : ℝ) :
    (if 0 < w ∧ 0 < k then divCk x (w + k) else some 0)
      = some (if 0 < w ∧ 0 < k then x / (w + k) else 0) := by
  split_ifs with h
  · exact divCk_of_ne x _ (ne_of_gt (add_pos h.1 h.2))
  · rfl

theorem roundAreaIn2Ck_eq (d : ℝ) :
    roundAreaIn2Ck d = some (roundAreaIn2 d) := by
  unfold roundAreaIn2Ck roundAreaIn2
  rw [divCk_of_ne _ _ (by norm_num : (2:ℝ) ≠ 0), optionBind_some]

theorem ck_area_round (d : ℝ) :
    (if 0 < d then roundAreaIn2Ck d else some 0)
      = some (if 0 < d then roundAreaIn2 d else 0) := by
  split_ifs with h
  · exact roundAreaIn2Ck_eq d
  · rfl

theorem equivalentRoundInCk_eq (a b : ℝ) :
    equivalentRoundInCk a b = some (equivalentRoundIn a b) := by
  unfold equivalentRoundInCk equivalentRoundIn
  split_ifs with h
  · rfl
  · push_neg at h
    exact divCk_of_ne _ _ (ne_of_gt (Real.rpow_pos_of_pos (add_pos h.1 h.2) _))

theorem paToInWgCk_eq (pa : ℝ) : paToInWgCk pa = some (paToInWg pa) := by
  unfold paToInWgCk paToInWg
  exact divCk_of_ne _ _ (by norm_num)

theorem ck_dpPa (fv LL DD vv : ℝ) :
    (if 0 < DD then
       Option.bind (divCk LL DD) (fun ld =>
         Option.bind (divCk vv 2) (fun vh => some (fv * ld * vh)))
     else some 0)
      = some (if 0 < DD then fv * (LL / DD) * (vv / 2) else 0) := by
  split_ifs with h
  · rw [divCk_of_ne _ _ (ne_of_gt h), optionBind_some,
      divCk_of_ne _ _ (by norm_num : (2:ℝ) ≠ 0), optionBind_some]
  · rfl

theorem ck_ideal (a : ℝ) :
    (if 0 < a then
       Option.bind (divCk (4 * a) Real.pi) (fun q => some (Real.sqrt q))
     else some 0)
      = some (if 0 < a then Real.sqrt (4 * a / Real.pi) else 0) := by
  split_ifs with h
  · rw [divCk_of_ne _ _ Real.pi_ne_zero, optionBind_some]
  · rfl

theorem frictionFactorDarcyCk_eq (Re eps D : ℝ)
    (hl : (Real.logb 10 (eps / (3.7 * D) + 5.74 / Re ^ ((0.9 : ℝ)))) ^ 2 ≠ 0) :
    frictionFactorDarcyCk Re eps D = some (frictionFactorDarcy Re eps D) := by
  unfold frictionFactorDarcyCk frictionFactorDarcy
  split_ifs with h1 h2
  · rfl
  · push_neg at h1
    exact divCk_of_ne _ _ (ne_of_gt h1.1)
  · push_neg at h1
    rw [divCk_of_ne _ _ (ne_of_gt (mul_pos (by norm_num) h1.2)), optionBind_some,
      divCk_of_ne _ _ (ne_of_gt (Real.rpow_pos_of_pos h1.1 _)), optionBind_some]
    exact divCk_of_ne _ _ hl

theorem frictionFactorDarcyCk_some {Re eps D fv : ℝ}
    (h : frictionFactorDarcyCk Re eps D = some fv) :
    fv = frictionFactorDarcy Re eps D := by
  unfold frictionFactorDarcyCk at h
  unfold frictionFactorDarcy
  split_ifs at h ⊢ with h1 h2
  · exact (Option.some.inj h).symm
  · push_neg at h1
    rw [divCk_of_ne _ _ (ne_of_gt h1.1)] at h
    exact (Option.some.inj h).symm
  · push_neg at h1
    rw [divCk_of_ne _ _ (ne_of_gt (mul_pos (by norm_num) h1.2)), optionBind_some,
      divCk_of_ne _ _ (ne_of_gt (Real.rpow_pos_of_pos h1.1 _)), optionBind_some] at h
    unfold divCk at h
    split_ifs at h with h3
    exact (Option.some.inj h).symm

theorem frictionFactorDarcyCk_none (Re eps D : ℝ) (h1 : 0 < Re)
    (h2 : 2300 ≤ Re) (h3 : 0 < D)
    (hlog : (Real.logb 10 (eps / (3.7 * D) + 5.74 / Re ^ ((0.9 : ℝ)))) ^ 2 = 0) :
    frictionFactorDarcyCk Re eps D = none := by
  unfold frictionFactorDarcyCk
  rw [if_neg (by push_neg; exact ⟨h1, h3⟩), if_neg (not_lt.mpr h2)]
  rw [divCk_of_ne _ _ (ne_of_gt (mul_pos (by norm_num) h3)), optionBind_some,
    divCk_of_ne _ _ (ne_of_gt (Real.rpow_pos_of_pos h1 _)), optionBind_some]
  unfold divCk
  rw [if_pos hlog]

theorem c2fpm_pos : (0 : ℝ) < c2fpm := by
  unfold c2fpm
  norm_num

theorem c2_aux_state :
    c2state = CalcInputs.mk Mode.fromCfm Shape.round Material.galv
      (some c2fpm) (some c2dia) (some 0) (some 0) (some 1) := rfl

theorem c2_aux_areaIn2 : (internals c2state).areaIn2 = 1 / c2fpm * 144 := by
  rw [c2_aux_state, internals_fromCfm_areaIn2]
  simp only [toNum_some]
  rw [if_pos c2fpm_pos]

theorem c2_aux_D : (internals c2state).D = c2dia * 0.0254 := by
  rw [internals_D, c2_aux_state, internals_round_Dh, toNum_some]
  rfl

theorem c2_aux_rpow : (1048576 : ℝ) ^ ((0.9 : ℝ)) = 262144 := by
  have h1 : (1048576 : ℝ) = 2 ^ (20 : ℕ) := by norm_num
  rw [h1, ← Real.rpow_natCast 2 20, ← Real.rpow_mul (by norm_num : (0:ℝ) ≤ 2)]
  rw [show ((20 : ℕ) : ℝ) * (0.9 : ℝ) = ((18 : ℕ) : ℝ) by norm_num]
  rw [Real.rpow_natCast]
  norm_num

theorem c2_aux_Re : (internals c2state).Re = 1048576 := by
  have haipos : (0 : ℝ) < 1 / c2fpm * 144 :=
    mul_pos (div_pos one_pos c2fpm_pos) (by norm_num)
  have hA : (internals c2state).A = 1 / c2fpm * 144 * (0.0254 * 0.0254) := by
    rw [internals_A, c2_aux_areaIn2, if_pos haipos]
  have hApos : (0 : ℝ) < 1 / c2fpm * 144 * (0.0254 * 0.0254) :=
    mul_pos haipos (by norm_num)
  have hQ : (internals c2state).Q = cfmToM3s 1 := by
    rw [internals_Q, c2_aux_state, internals_fromCfm_usedCfm, toNum_some]
  have hV : (internals c2state).V
      = cfmToM3s 1 / (1 / c2fpm * 144 * (0.0254 * 0.0254)) := by
    rw [internals_V, hA, if_pos hApos, hQ]
  rw [internals_Re, if_pos (by norm_num [mu] : (0:ℝ) < mu), hV, c2_aux_D]
  unfold rho mu cfmToM3s c2fpm c2dia
  norm_num

theorem c2_aux_term :
    (internals c2state).eps / (3.7 * (internals c2state).D)
      + 5.74 / (internals c2state).Re ^ ((0.9 : ℝ)) = 1 := by
  have heps : (internals c2state).eps = 0.00015 := by
    rw [c2_aux_state]
    exact internals_galv_eps Mode.fromCfm Shape.round (some c2fpm) (some c2dia)
      (some 0) (some 0) (some 1)
  rw [heps, c2_aux_D, c2_aux_Re, c2_aux_rpow]
  unfold c2dia
  norm_num

theorem divCk_144 (x : ℝ) : divCk x 144 = some (x / 144) :=
  divCk_of_ne x 144 (by norm_num)

theorem ite_some {c : Prop} [Decidable c] (a b : ℝ) :
    (if c then some a else some b) = some (if c then a else b) := by
  split_ifs <;> rfl

theorem bind_congr_some {α β : Type} (m : Option α) (f : α → Option β) (b : β)
    (hf : ∀ a, m = some a → f a = some b) :
    Option.bind m f = Option.bind m (fun _ => some b) := by
  cases m with
  | none => rfl
  | some a => exact hf a rfl

/-- The checked rerun of the calc memo succeeds with exactly the model
internals whenever the friction-factor divisions succeed, and fails exactly
when they fail: every division site before and after the friction factor is
protected by the guard the source gives it. -/
theorem calcChecked_eval (s : CalcInputs) :
    calcChecked s
      = Option.bind
          (frictionFactorDarcyCk (internals s).Re (internals s).eps (internals s).D)
          (fun _ => some (internals s)) := by
  obtain ⟨mo, sh, m, v, dia, w, h, c⟩ := s
  cases mo <;> cases sh <;>
    simp only [calcChecked, internals, ck_area_round, ck_guard, ck_guard2,
      ite_some, equivalentRoundInCk_eq, divCk_144, paToInWgCk_eq, ck_dpPa,
      ck_ideal, optionBind_some] <;>
    refine bind_congr_some _ _ _ (fun fv hm => ?_) <;>
    rw [frictionFactorDarcyCk_some hm]

/-- C2 counterexample: at the adversarial state c2state the turbulent branch
is taken with Re = 2^20 and eps/(3.7 D) + 5.74/Re^0.9 = 1 exactly, so the
code divides 0.25 by log10(term)^2 = 0, the checked rerun aborts, and the
claim as stated, that every division has a nonzero denominator or is
short-circuited, is false. -/
theorem c2_counterexample : calcChecked c2state = none := by
  have h1 : (0 : ℝ) < (internals c2state).Re := by
    rw [c2_aux_Re]
    norm_num
  have h2 : (2300 : ℝ) ≤ (internals c2state).Re := by
    rw [c2_aux_Re]
    norm_num
  have h3 : (0 : ℝ) < (internals c2state).D := by
    rw [c2_aux_D]
    unfold c2dia
    norm_num
  have hlog : (Real.logb 10 ((internals c2state).eps
      / (3.7 * (internals c2state).D)
      + 5.74 / (internals c2state).Re ^ ((0.9 : ℝ)))) ^ 2 = 0 := by
    rw [c2_aux_term, Real.logb_one]
    norm_num
  rw [calcChecked_eval c2state,
    frictionFactorDarcyCk_none _ _ _ h1 h2 h3 hlog]
  rfl

/-- C2 amended: for every combination of mode, shape, material and textual
inputs, either every division the calc memo performs has a nonzero
denominator, and the checked rerun returns exactly the model result, or the
single unguarded denominator, the square of log10(eps/(3.7 D)+5.74/Re^0.9)
in the turbulent friction factor, is zero. -/
theorem c2_amended (s : CalcInputs) :
    calcChecked s = some (internals s) ∨ turbDenom s = 0 := by
  by_cases ht : turbDenom s = 0
  · exact Or.inr ht
  · left
    unfold turbDenom at ht
    rw [calcChecked_eval s, frictionFactorDarcyCk_eq _ _ _ ht]
    rfl
